import Mathlib

/-!
Verification of the DiscoPoP pattern-detection core against its
natural-language specification.

The development shallowly embeds the two generations of the code base:

* the graph-tool flavoured modules (`pattern_detection.py` and
  `graph_analyzer/pattern_detectors/task_parallelism_detector.py`), where a
  graph is a vertex list together with string-valued vertex and edge property
  maps (namespaces `PD` and `TPD` below), and
* the networkx flavoured module (`graph_analyzer/PETGraphX.py` together with
  `graph_analyzer/pattern_detectors/geometric_decomposition_detector.py`),
  where nodes are records addressed by string ids (namespace `PGX` below).

Recursive CHILD-subtree walks in the source terminate only on acyclic CHILD
graphs; the embedding makes them total with an explicit fuel parameter, the
standard shallow-embedding device for such traversals.
-/

/-- Everything after the first colon of a character list. -/
def afterColonChars : List Char → List Char
  | [] => []
  | c :: cs => if c = ':' then cs else afterColonChars cs

/-- Everything after the first colon of a position string, mirroring the
Python idiom `s[s.index(":") + 1:]` used throughout the sources (the sources
only apply it to strings that contain a colon). -/
def afterColon (s : String) : String :=
  String.mk (afterColonChars s.data)

/-- Lexicographic comparison of character lists by code point. -/
def charListLt : List Char → List Char → Bool
  | [], [] => false
  | [], _ :: _ => true
  | _ :: _, [] => false
  | a :: as, b :: bs =>
    if a.toNat < b.toNat then true
    else if b.toNat < a.toNat then false
    else charListLt as bs

/-- Python's `<` on strings: lexicographic comparison by code point (the
sources compare line-number substrings this way, NOT numerically). -/
def strLt (s t : String) : Bool :=
  charListLt s.data t.data

/-- An edge of the graph-tool flavoured PET graph: endpoints plus the edge
property maps `type`, `dtype`, `var`, `source` and `sink` used by
`pattern_detection.py` and `task_parallelism_detector.py`. -/
structure GTEdge where
  src : Nat
  tgt : Nat
  etype : String
  dtype : String
  var : String
  source : String
  sink : String
deriving DecidableEq, Repr

/-- The graph-tool flavoured PET graph: a vertex list and the vertex property
maps the detectors read and write (`type`, `startsAtLine`, `endsAtLine`,
`localVars`, `globalVars`, `pipeline`, `doAll`, `reduction`, `geomDecomp`,
`mwType` and the three `viz_*` flags of the barrier-suggestion pass). -/
structure GTGraph where
  vertices : List Nat
  edges : List GTEdge
  vpType : Nat → String
  vpStartsAtLine : Nat → String
  vpEndsAtLine : Nat → String
  vpLocalVars : Nat → List String
  vpGlobalVars : Nat → List String
  vpPipeline : Nat → ℝ
  vpDoAll : Nat → ℝ
  vpReduction : Nat → Bool
  vpGeomDecomp : Nat → Bool
  vpMwType : Nat → String
  vpVizOmittable : Nat → String
  vpVizContainsTaskwait : Nat → String
  vpVizContainsTask : Nat → String

/-- All outgoing edges of a vertex, in edge-list order (`v.out_edges()`). -/
def GTGraph.outEdges (g : GTGraph) (v : Nat) : List GTEdge :=
  g.edges.filter (fun e => e.src == v)

/-- All incoming edges of a vertex, in edge-list order (`v.in_edges()`). -/
def GTGraph.inEdges (g : GTGraph) (v : Nat) : List GTEdge :=
  g.edges.filter (fun e => e.tgt == v)

/-- `find_subnodes(graph, node, criteria)`: targets of outgoing edges whose
edge type matches the criteria. -/
def find_subnodes (g : GTGraph) (node : Nat) (criteria : String) : List Nat :=
  ((g.outEdges node).filter (fun e => e.etype == criteria)).map (fun e => e.tgt)

/-- Pointwise update of the `mwType` vertex property. -/
def GTGraph.updMw (g : GTGraph) (v : Nat) (s : String) : GTGraph :=
  { g with vpMwType := fun x => if x = v then s else g.vpMwType x }

namespace PD

/-- `PatternDetector.get_subtree_of_type`: pre-order DFS over `child` edges,
keeping vertices matching the requested type (`'*'` keeps every vertex).
The recursion is fuelled; the source relies on the CHILD graph being acyclic. -/
def get_subtree_of_type (g : GTGraph) : Nat → Nat → String → List Nat
  | 0, _, _ => []
  | fuel + 1, root, t =>
    (if g.vpType root = t ∨ t = "*" then [root] else []) ++
      (find_subnodes g root "child").flatMap
        (fun c => get_subtree_of_type g fuel c t)

/-- `PatternDetector.depends(source, target)`: some vertex of `source`'s
whole subtree has an outgoing edge with `dtype == 'RAW'` into `target`'s
whole subtree; a vertex never depends on itself. -/
def depends (g : GTGraph) (fuel : Nat) (source target : Nat) : Bool :=
  if source = target then false
  else
    let target_nodes := get_subtree_of_type g fuel target "*"
    (get_subtree_of_type g fuel source "*").any (fun node =>
      (((g.outEdges node).filter (fun e => e.dtype == "RAW")).map
          (fun e => e.tgt)).any (fun dep => target_nodes.contains dep))

/-- `PatternDetector.is_loop_index(e, loops_start_lines, children)`: the RAW
dependency edge is a self-dependency located at a loop header whose target is
one of the loop's children. -/
def is_loop_index (e : GTEdge) (loops_start_lines : List String)
    (children : List Nat) : Bool :=
  e.source == e.sink && loops_start_lines.contains e.source &&
    children.contains e.tgt

/-- `PatternDetector.is_readonly_inside_loop_body(dep, root_loop)`: no
WAR/WAW edge on the dependency's variable has its sink outside the loop
start lines, and no inbound RAW edge on it has its source outside them. -/
def is_readonly_inside_loop_body (g : GTGraph) (fuel : Nat) (dep : GTEdge)
    (root_loop : Nat) : Bool :=
  let loops_start_lines :=
    (get_subtree_of_type g fuel root_loop "2").map g.vpStartsAtLine
  let children := get_subtree_of_type g fuel root_loop "0"
  children.all (fun v =>
    ((g.outEdges v).all (fun e =>
      if e.dtype == "WAR" || e.dtype == "WAW" then
        !(dep.var == e.var && !(loops_start_lines.contains e.sink))
      else true)) &&
    ((g.inEdges v).all (fun e =>
      if e.dtype == "RAW" then
        !(dep.var == e.var && !(loops_start_lines.contains e.source))
      else true)))

/-- `PatternDetector.get_all_dependencies(node, root_loop)`: RAW-dependency
targets of the CU-subtree of `node`.  Note that this legacy copy skips a
target only when `is_loop_index` AND `is_readonly_inside_loop_body` both
hold (`if not (a and b): add`); the `dep_set` Python set is rendered as a
list, which has the same membership. -/
def get_all_dependencies (g : GTGraph) (fuel : Nat) (node root_loop : Nat) :
    List Nat :=
  let children := get_subtree_of_type g fuel node "0"
  let loops_start_lines :=
    (get_subtree_of_type g fuel root_loop "2").map g.vpStartsAtLine
  children.flatMap (fun v =>
    ((g.outEdges v).filter (fun e =>
        e.etype == "dependence" && e.dtype == "RAW")).flatMap (fun e =>
      if !(is_loop_index e loops_start_lines
            (get_subtree_of_type g fuel root_loop "0") &&
          is_readonly_inside_loop_body g fuel e root_loop)
      then [e.tgt] else []))

/-- Modelled from the spec: `get_all_dependencies` as §4.1 words it — a
target is excluded as soon as EITHER `is_loop_index` OR
`is_readonly_inside_loop_body` holds; kept for comparison with the
implementation above. -/
def get_all_dependencies_spec (g : GTGraph) (fuel : Nat)
    (node root_loop : Nat) : List Nat :=
  let children := get_subtree_of_type g fuel node "0"
  let loops_start_lines :=
    (get_subtree_of_type g fuel root_loop "2").map g.vpStartsAtLine
  children.flatMap (fun v =>
    ((g.outEdges v).filter (fun e =>
        e.etype == "dependence" && e.dtype == "RAW")).flatMap (fun e =>
      if !(is_loop_index e loops_start_lines
            (get_subtree_of_type g fuel root_loop "0") ||
          is_readonly_inside_loop_body g fuel e root_loop)
      then [e.tgt] else []))

/-- `PatternDetector.is_depending(v_source, v_target, root_loop)`: some
filtered dependency of the source reaches the target's CU-subtree or the
target itself. -/
def is_depending (g : GTGraph) (fuel : Nat) (v_source v_target root_loop : Nat) :
    Bool :=
  let children := get_subtree_of_type g fuel v_target "0" ++ [v_target]
  (get_all_dependencies g fuel v_source root_loop).any
    (fun dep => children.contains dep)

end PD

/-- Euclidean vector norm, `np.linalg.norm`. -/
noncomputable def vnorm (v : List ℝ) : ℝ :=
  Real.sqrt ((v.map (fun x => x ^ 2)).sum)

/-- Dot product of two same-length vectors, `np.dot`. -/
def vdot (v1 v2 : List ℝ) : ℝ :=
  (List.zipWith (fun a b => a * b) v1 v2).sum

/-- `correlation_coefficient(v1, v2)`: `(A dot B) / (norm(A) * norm(B))`,
returning 0 when the product of the norms is 0 so the division is never
performed on a zero denominator. -/
noncomputable def correlation_coefficient (v1 v2 : List ℝ) : ℝ :=
  if vnorm v1 * vnorm v2 = 0 then 0
  else vdot v1 v2 / (vnorm v1 * vnorm v2)

/-- `self.do_all_threshold = 0.9`. -/
noncomputable def do_all_threshold : ℝ := 0.9

namespace PD

/-- `PatternDetector.is_pipeline_subnode(root, current, children_start_lines)`. -/
def is_pipeline_subnode (g : GTGraph) (root current : Nat)
    (children_start_lines : List String) : Bool :=
  let r_start := g.vpStartsAtLine root
  let r_end := g.vpEndsAtLine root
  let c_start := g.vpStartsAtLine current
  let c_end := g.vpEndsAtLine current
  !((c_start == r_start && c_end == r_start) ||
    (c_start == r_end && c_end == r_end) ||
    (c_start == c_end && children_start_lines.contains c_start))

/-- `PatternDetector.__detect_pipeline(root)`: pipeline scalar for a loop.
The transient `vp.pipeline[root] = -1` write in the fewer-than-two-stages
branch is immediately overwritten by the caller's assignment of the returned
0, so it does not appear in the final state and is elided here. -/
noncomputable def detect_pipeline (g : GTGraph) (fuel : Nat) (root : Nat) : ℝ :=
  let children_start_lines :=
    ((find_subnodes g root "child").filter (fun v => g.vpType v == "2")).map
      g.vpStartsAtLine
  let loop_subnodes := (find_subnodes g root "child").filter
    (fun v => is_pipeline_subnode g root v children_start_lines)
  if loop_subnodes.length < 2 then 0
  else
    let n := loop_subnodes.length
    let graph_vector : List ℝ := (List.range (n - 1)).map (fun i =>
      if is_depending g fuel (loop_subnodes.getD (i + 1) 0)
          (loop_subnodes.getD i 0) root then 1 else 0)
    let pipeline_vector : List ℝ := (List.range (n - 1)).map (fun _ => 1)
    let min_weight : ℝ := (List.range n).foldl (fun mw i =>
      (List.range (n - (i + 1))).foldl (fun mw k =>
        let j := i + 1 + k
        if is_depending g fuel (loop_subnodes.getD i 0)
            (loop_subnodes.getD j 0) root then
          let node_weight : ℝ := 1 - ((j : ℝ) - (i : ℝ)) / ((n : ℝ) - 1)
          if mw > node_weight ∧ node_weight > 0 then node_weight else mw
        else mw) mw) 1
    if min_weight = 1 then
      correlation_coefficient (graph_vector ++ [0]) (pipeline_vector ++ [0])
    else
      correlation_coefficient (graph_vector ++ [1])
        (pipeline_vector ++ [min_weight])

/-- `PatternDetector.__detect_do_all(root)`: do-all scalar for a loop, from
pairwise `is_depending` over all ordered child pairs `i <= j`. -/
noncomputable def detect_do_all (g : GTGraph) (fuel : Nat) (root : Nat) : ℝ :=
  let subnodes := find_subnodes g root "child"
  let n := subnodes.length
  let graph_vector : List ℝ := (List.range n).flatMap (fun i =>
    (List.range (n - i)).map (fun k =>
      if is_depending g fuel (subnodes.getD i 0) (subnodes.getD (i + k) 0)
          root then 0 else 1))
  let pattern_vector : List ℝ := graph_vector.map (fun _ => 1)
  if vnorm graph_vector = 0 then 0
  else correlation_coefficient graph_vector pattern_vector

/-- The reduction-variable fact table entries parsed from `reduction.txt`:
a loop line paired with a variable name. -/
structure RedVar where
  loop_line : String
  name : String
deriving DecidableEq, Repr

/-- `PatternDetector.__is_reduction_var(line, name)`. -/
def is_reduction_var (reduction_vars : List RedVar) (line name : String) :
    Bool :=
  reduction_vars.any (fun rv => rv.loop_line == line && rv.name == name)

/-- `PatternDetector.__detect_reduction(root)`: the local and global
variable names of the loop's CU-subtree are collected (the Python set is
rendered as a list, which has the same `any` semantics) and intersected with
the reduction-variable table keyed by the loop's start line. -/
def detect_reduction (g : GTGraph) (reduction_vars : List RedVar) (fuel : Nat)
    (root : Nat) : Bool :=
  if g.vpType root ≠ "2" then false
  else
    let vars := (get_subtree_of_type g fuel root "0").flatMap
      (fun node => g.vpLocalVars node ++ g.vpGlobalVars node)
    vars.any (fun v => is_reduction_var reduction_vars (g.vpStartsAtLine root) v)

/-- Inner loop of the BARRIER-pair scan of
`PatternDetector.detect_task_parallelism` (and identically of
`__detect_mw_types` in `task_parallelism_detector.py`): for a fixed `n1`,
walk the remaining candidates; the `break` aborts the walk at the first
BARRIER sibling that has a direct edge to or from `n1`. -/
def barrier_pair_inner (g : GTGraph) (n1 : Nat) : List Nat → GTGraph
  | [] => g
  | n2 :: rest =>
    if g.vpMwType n2 = "BARRIER" ∧ n1 ≠ n2 then
      if n2 ∈ (g.outEdges n1).map (fun e => e.tgt) ∨
          n2 ∈ (g.inEdges n1).map (fun e => e.src) then
        g
      else
        barrier_pair_inner
          ((g.updMw n1 "BARRIER_WORKER").updMw n2 "BARRIER_WORKER") n1 rest
    else barrier_pair_inner g n1 rest

/-- `PatternDetector.detect_task_parallelism(main_node)`: the classification
pass over the direct children (each child is made FORK if still NONE/ROOT,
then every other sibling that depends on it is promoted NONE/ROOT/FORK →
WORKER → BARRIER), followed by the BARRIER-pair scan. -/
def detect_task_parallelism (g : GTGraph) (fuel : Nat) (main_node : Nat) :
    GTGraph :=
  let g1 := (find_subnodes g main_node "child").foldl (fun g node =>
    let g := if g.vpMwType node = "NONE" ∨ g.vpMwType node = "ROOT" then
        g.updMw node "FORK" else g
    let other_nodes := (find_subnodes g main_node "child").erase node
    other_nodes.foldl (fun g other_node =>
      if depends g fuel other_node node then
        if g.vpMwType other_node = "WORKER" then g.updMw other_node "BARRIER"
        else g.updMw other_node "WORKER"
      else g) g) g
  let direct_subnodes := find_subnodes g1 main_node "child"
  direct_subnodes.foldl (fun g n1 =>
    if g.vpMwType n1 = "BARRIER" then barrier_pair_inner g n1 direct_subnodes
    else g) g1

/-- `PatternDetector.__detect_geometric_decomposition(root)`
(`pattern_detection.py` version): disqualify on the first LOOP of the
CHILD-subtree that is neither above the do-all threshold nor a reduction;
the second loop filters edges by edge type `'1'` exactly as the source
passes the node-type criteria to `find_subnodes`. -/
noncomputable def detect_geometric_decomposition (g : GTGraph) (fuel : Nat)
    (root : Nat) : Bool :=
  ((get_subtree_of_type g fuel root "2").all (fun child =>
    !(decide (g.vpDoAll child < do_all_threshold) && !(g.vpReduction child)))) &&
  ((find_subnodes g root "1").all (fun child =>
    (find_subnodes g child "2").all (fun child2 =>
      !(decide (g.vpDoAll child2 < do_all_threshold) &&
        !(g.vpReduction child2)))))

/-- The state a `PatternDetector` instance carries across the passes of
`detect_patterns`: the graph plus the two auxiliary fact tables loaded in
`__init__` (`loop_data` and `reduction_vars`). -/
structure DetectorState where
  g : GTGraph
  loop_data : String → Int
  reduction_vars : List RedVar

/-- `PatternDetector.__merge(loop_type, remove_dummies)`: the only state
effect is the removal, while scanning each processed vertex's outgoing
edges, of `child` edges leading to a dummy (`type == '3'`) target; a vertex
is processed when it passes the `loop_type` filter and, under
`remove_dummies`, is not itself a dummy.  As every edge is the outgoing edge
of exactly its source, the scan amounts to this filter of the edge list. -/
def merge (loop_type remove_dummies : Bool) (s : DetectorState) :
    DetectorState :=
  { s with g := { s.g with edges := s.g.edges.filter (fun e =>
      !(remove_dummies && (!loop_type || s.g.vpType e.src == "2") &&
        !(s.g.vpType e.src == "3") && e.etype == "child" &&
        s.g.vpType e.tgt == "3")) } }

/-- `PatternDetector.__detect_pipeline_loop()`: store the pipeline scalar on
every loop vertex.  `__detect_pipeline` reads no `pipeline` value, so the
per-vertex writes commute into one simultaneous update. -/
noncomputable def detect_pipeline_loop (fuel : Nat) (s : DetectorState) :
    DetectorState :=
  { s with g := { s.g with vpPipeline := fun v =>
      (if v ∈ s.g.vertices ∧ s.g.vpType v = "2" then
        detect_pipeline s.g fuel v
      else s.g.vpPipeline v) } }

/-- `PatternDetector.__detect_reduction_loop()`: set the `reduction` flag on
every loop vertex where `__detect_reduction` holds; no flag is ever
cleared.  `__detect_reduction` reads no `reduction` value, so the
per-vertex writes commute into one simultaneous update. -/
def detect_reduction_loop (fuel : Nat) (s : DetectorState) : DetectorState :=
  { s with g := { s.g with vpReduction := fun v =>
      (if v ∈ s.g.vertices ∧ s.g.vpType v = "2" ∧
          detect_reduction s.g s.reduction_vars fuel v = true then true
      else s.g.vpReduction v) } }

/-- `PatternDetector.__detect_do_all_loop()`: store the do-all scalar on
every loop vertex where it exceeds the threshold.  `__detect_do_all` reads
no `doAll` value, so the per-vertex writes commute into one simultaneous
update. -/
noncomputable def detect_do_all_loop (fuel : Nat) (s : DetectorState) :
    DetectorState :=
  { s with g := { s.g with vpDoAll := fun v =>
      (if v ∈ s.g.vertices ∧ s.g.vpType v = "2" ∧
          detect_do_all s.g fuel v > do_all_threshold then
        detect_do_all s.g fuel v
      else s.g.vpDoAll v) } }

/-- `PatternDetector.__detect_task_parallelism_loop()`: run the
classification on every non-dummy vertex that has children, then default
remaining NONE vertices to ROOT; the scan is sequential because
`detect_task_parallelism` both reads and writes `mwType`. -/
def detect_task_parallelism_loop (fuel : Nat) (s : DetectorState) :
    DetectorState :=
  { s with g := s.g.vertices.foldl (fun g node =>
      if g.vpType node = "3" then g
      else
        let g := if find_subnodes g node "child" ≠ [] then
            detect_task_parallelism g fuel node else g
        if g.vpMwType node = "NONE" then g.updMw node "ROOT" else g) s.g }

/-- `PatternDetector.__detect_geometric_decomposition_loop()`: set the
`geomDecomp` flag on every function vertex where the detector holds.  The
subsequent `__test_chunk_limit` call only influences console output (and a
memoised iteration-count cache read by nobody else), so it contributes no
graph state.  `__detect_geometric_decomposition` reads no `geomDecomp`
value, so the per-vertex writes commute into one simultaneous update. -/
noncomputable def detect_geometric_decomposition_loop (fuel : Nat)
    (s : DetectorState) : DetectorState :=
  { s with g := { s.g with vpGeomDecomp := fun v =>
      (if v ∈ s.g.vertices ∧ s.g.vpType v = "1" ∧
          detect_geometric_decomposition s.g fuel v = true then true
      else s.g.vpGeomDecomp v) } }

end PD

namespace TPD

/-- The `Task` class of `task_parallelism_detector.py`, restricted to the
fields `aggregate` reads or writes (`nodes`, `start_line`, `end_line`,
`workload`, `instruction_count`, `mw_type`); the `child_tasks` list is
managed by the callers of `aggregate`, never by `aggregate` itself, and the
remaining constructor-only fields are bookkeeping copies of these. -/
structure Task where
  node_id : String
  nodes : List Nat
  start_line : String
  end_line : String
  mw_type : String
  instruction_count : Int
  workload : Int
deriving DecidableEq, Repr

/-- `Task.aggregate(other)`: merge `other` into the current task.  The new
role is BARRIER_WORKER when `other`'s role was BARRIER_WORKER and WORKER
otherwise — the current task's own role is not consulted. -/
def Task.aggregate (self other : Task) : Task :=
  { self with
    nodes := self.nodes ++ other.nodes
    end_line := other.end_line
    workload := self.workload + other.workload
    instruction_count := self.instruction_count + other.instruction_count
    mw_type := if other.mw_type = "BARRIER_WORKER" then "BARRIER_WORKER"
      else "WORKER" }

/-- The taskwait pragma line computed for one BARRIER vertex by
`__detect_task_suggestions`: starting from the vertex's own end line, every
outgoing `dependence` edge whose sink line number compares (as a string)
below the end line number replaces the current value.  The threshold
`first_dependency_line_number` is computed once from the end line and never
updated, so the fold keeps the LAST qualifying sink, not the smallest. -/
def first_dependency_line (g : GTGraph) (v : Nat) : String :=
  let first_dependency_line_number := afterColon (g.vpEndsAtLine v)
  (g.outEdges v).foldl (fun first e =>
    if e.etype == "dependence" &&
        strLt (afterColon e.sink) first_dependency_line_number then e.sink
    else first) (g.vpEndsAtLine v)

/-- The SUGGEST TASKWAIT part of `__detect_task_suggestions`: one
`taskwait` suggestion per BARRIER vertex, rendered as the pair of the
vertex and its pragma line. -/
def taskwait_suggestions (g : GTGraph) : List (Nat × String) :=
  (g.vertices.filter (fun v => g.vpMwType v == "BARRIER")).map
    (fun v => (v, first_dependency_line g v))

/-- Set the `viz_omittable` flag of a vertex to `'True'`. -/
def mark_omittable (g : GTGraph) (v : Nat) : GTGraph :=
  { g with vpVizOmittable := fun x => if x = v then "True" else
      g.vpVizOmittable x }

/-- Set the `viz_contains_taskwait` flag of a vertex to `'True'`. -/
def mark_contains_taskwait (g : GTGraph) (v : Nat) : GTGraph :=
  { g with vpVizContainsTaskwait := fun x => if x = v then "True" else
      g.vpVizContainsTaskwait x }

/-- The mutable state of the `__detect_barrier_suggestions` fixpoint loop:
the graph (whose `viz_*` flags the loop flips), the growing
`barrier_nodes` list, the appended `taskwait` suggestions (vertex and
pragma line), and the `transformation_happened` flag. -/
structure BarrierState where
  g : GTGraph
  barrier_nodes : List Nat
  suggestions : List (Nat × String)
  changed : Bool

/-- The per-vertex body of one scan of `__detect_barrier_suggestions`:
count outgoing dependence targets that are task / barrier / other nodes and
apply the three-way branch; `normal_count` is tallied by the source but
read by no branch condition. -/
def barrier_step (task_nodes : List Nat) (s : BarrierState) (v : Nat) :
    BarrierState :=
  let out_dep_edges := (s.g.outEdges v).filter
    (fun e => e.etype == "dependence")
  let v_first_line := afterColon (s.g.vpStartsAtLine v)
  let task_count := (out_dep_edges.filter
    (fun e => task_nodes.contains e.tgt)).length
  let barrier_count := (out_dep_edges.filter (fun e =>
    !(task_nodes.contains e.tgt) && s.barrier_nodes.contains e.tgt)).length
  if task_count = 1 ∧ barrier_count = 0 then
    if s.g.vpVizOmittable v = "False" then
      { s with g := mark_omittable s.g v, changed := true }
    else s
  else if barrier_count ≠ 0 ∧ task_count ≠ 0 then
    let child_barriers := (out_dep_edges.filter (fun e =>
      s.g.vpVizContainsTaskwait e.tgt == "True")).map (fun e => e.tgt)
    let child_tasks := (out_dep_edges.filter (fun e =>
      s.g.vpVizContainsTask e.tgt == "True")).map (fun e => e.tgt)
    let uncovered_task_exists := child_tasks.any (fun ct =>
      child_barriers.any (fun cb =>
        !(strLt (afterColon (s.g.vpStartsAtLine ct))
            (afterColon (s.g.vpStartsAtLine cb)) &&
          strLt (afterColon (s.g.vpEndsAtLine ct))
            (afterColon (s.g.vpEndsAtLine cb)))))
    if uncovered_task_exists then
      if s.g.vpVizContainsTaskwait v = "False" then
        { s with
          g := mark_contains_taskwait s.g v
          barrier_nodes := s.barrier_nodes ++ [v]
          changed := true
          suggestions := s.suggestions ++ [(v, v_first_line)] }
      else s
    else s
  else if task_count ≠ 0 then
    if s.g.vpVizContainsTaskwait v = "False" then
      { s with
        g := mark_contains_taskwait s.g v
        barrier_nodes := s.barrier_nodes ++ [v]
        changed := true
        suggestions := s.suggestions ++ [(v, v_first_line)] }
    else s
  else s

/-- One full scan of the fixpoint loop body: reset
`transformation_happened`, then process every vertex in order. -/
def barrier_scan (task_nodes : List Nat) (s : BarrierState) : BarrierState :=
  s.g.vertices.foldl (barrier_step task_nodes) { s with changed := false }

/-- The `while transformation_happened` loop of
`__detect_barrier_suggestions`, fuelled: scan, and repeat while the scan
reported a change. -/
def barrier_loop (task_nodes : List Nat) : Nat → BarrierState → BarrierState
  | 0, s => s
  | fuel + 1, s =>
    let s' := barrier_scan task_nodes s
    if s'.changed then barrier_loop task_nodes fuel s' else s'

/-- Number of still-unset (`'False'`) `viz_omittable` and
`viz_contains_taskwait` flags; the termination measure of the loop. -/
def barrier_measure (s : BarrierState) : Nat :=
  s.g.vertices.countP (fun v => s.g.vpVizOmittable v == "False") +
    s.g.vertices.countP (fun v => s.g.vpVizContainsTaskwait v == "False")

end TPD

namespace PGX

/-- `EdgeType` of `PETGraphX.py`. -/
inductive EdgeType where
  | CHILD
  | SUCCESSOR
  | DATA
deriving DecidableEq, Repr, Inhabited

/-- `DepType` of `PETGraphX.py`. -/
inductive DepType where
  | RAW
  | WAR
  | WAW
deriving DecidableEq, Repr, Inhabited

/-- `CuType` of `PETGraphX.py`. -/
inductive CuType where
  | CU
  | FUNC
  | LOOP
  | DUMMY
deriving DecidableEq, Repr, Inhabited

/-- The `Dependency` edge payload of `PETGraphX.py`; `dtype` is `none` for
CHILD and SUCCESSOR edges, mirroring the constructor's `self.dtype = None`. -/
structure Dependency where
  etype : EdgeType
  dtype : Option DepType
  var_name : String
  source : String
  sink : String
deriving DecidableEq, Repr, Inhabited

/-- The `CuNode` record of `PETGraphX.py`, restricted to the fields the
embedded operations read (`id`, `type`, the source range behind
`start_position`, and the `reduction`/`do_all` analysis flags); the
remaining constructor fields (name, instruction count, variable lists,
pipeline score) are not consulted by the functions verified here. -/
structure CuNode where
  id : String
  type : CuType
  source_file : Int
  start_line : Int
  end_line : Int
  reduction : Bool
  do_all : Bool
deriving DecidableEq, Repr, Inhabited

/-- `CuNode.start_position()`: the `"file:line"` rendering. -/
def CuNode.start_position (n : CuNode) : String :=
  toString n.source_file ++ ":" ++ toString n.start_line

/-- The networkx multi-digraph of `PETGraphX`: nodes addressed by string id,
edges as (source id, target id, payload) triples in insertion order. -/
structure Graph where
  nodes : List (String × CuNode)
  edges : List (String × String × Dependency)

/-- `PETGraphX.node_at(node_id)`; lookups in the source presuppose a present
node, the default is only reached on ids absent from the graph. -/
def node_at (g : Graph) (node_id : String) : CuNode :=
  match g.nodes.find? (fun p => p.1 == node_id) with
  | some p => p.2
  | none => default

/-- `PETGraphX.out_edges(node_id, etype)`. -/
def out_edges (g : Graph) (node_id : String) (etype : EdgeType) :
    List (String × String × Dependency) :=
  g.edges.filter (fun t => t.1 == node_id && t.2.2.etype == etype)

/-- `PETGraphX.in_edges(node_id, etype)`. -/
def in_edges (g : Graph) (node_id : String) (etype : EdgeType) :
    List (String × String × Dependency) :=
  g.edges.filter (fun t => t.2.1 == node_id && t.2.2.etype == etype)

/-- `PETGraphX.subtree_of_type(root, type)`: fuelled pre-order DFS over
CHILD edges. -/
def subtree_of_type (g : Graph) : Nat → CuNode → CuType → List CuNode
  | 0, _, _ => []
  | fuel + 1, root, t =>
    (if root.type = t then [root] else []) ++
      (out_edges g root.id EdgeType.CHILD).flatMap
        (fun e => subtree_of_type g fuel (node_at g e.2.1) t)

/-- `PETGraphX.direct_children_of_type(root, type)`. -/
def direct_children_of_type (g : Graph) (root : CuNode) (t : CuType) :
    List CuNode :=
  ((out_edges g root.id EdgeType.CHILD).map
    (fun e => node_at g e.2.1)).filter (fun n => n.type == t)

/-- `PETGraphX.is_loop_index(var_name, loops_start_lines, children)`: some
child of the loop has an outgoing RAW self-dependency on the variable,
positioned at a loop start line, whose target is again one of the children
(`CuNode` equality in the source compares ids). -/
def is_loop_index (g : Graph) (var_name : String)
    (loops_start_lines : List String) (children : List CuNode) : Bool :=
  children.any (fun c =>
    ((out_edges g c.id EdgeType.DATA).filter (fun e =>
        e.2.2.dtype == some DepType.RAW && e.2.2.var_name == var_name)).any
      (fun e =>
        e.2.2.sink == e.2.2.source &&
        loops_start_lines.contains e.2.2.source &&
        children.any (fun n => n.id == (node_at g e.2.1).id)))

/-- `PETGraphX.is_readonly_inside_loop_body(dep, root_loop)`. -/
def is_readonly_inside_loop_body (g : Graph) (fuel : Nat) (dep : Dependency)
    (root_loop : CuNode) : Bool :=
  let loops_start_lines :=
    (subtree_of_type g fuel root_loop CuType.LOOP).map CuNode.start_position
  let children := subtree_of_type g fuel root_loop CuType.CU
  children.all (fun v =>
    (((out_edges g v.id EdgeType.DATA).filter (fun e =>
        e.2.2.dtype == some DepType.WAR ||
          e.2.2.dtype == some DepType.WAW)).all (fun e =>
      !(dep.var_name == e.2.2.var_name &&
        !(loops_start_lines.contains e.2.2.sink)))) &&
    (((in_edges g v.id EdgeType.DATA).filter (fun e =>
        e.2.2.dtype == some DepType.RAW)).all (fun e =>
      !(dep.var_name == e.2.2.var_name &&
        !(loops_start_lines.contains e.2.2.source)))))

/-- `PETGraphX.get_all_dependencies(node, root_loop)`: RAW targets of the
CU-subtree of `node`; an edge is skipped (`continue`) as soon as EITHER
`is_loop_index` OR `is_readonly_inside_loop_body` holds.  The Python set of
`CuNode` is keyed by node id (its `__eq__` compares ids), rendered here as
the list of added target ids, which has the same membership. -/
def get_all_dependencies (g : Graph) (fuel : Nat) (node root_loop : CuNode) :
    List String :=
  let children := subtree_of_type g fuel node CuType.CU
  let loops_start_lines :=
    (subtree_of_type g fuel root_loop CuType.LOOP).map CuNode.start_position
  children.flatMap (fun v =>
    ((out_edges g v.id EdgeType.DATA).filter (fun e =>
        e.2.2.dtype == some DepType.RAW)).flatMap (fun e =>
      if is_loop_index g e.2.2.var_name loops_start_lines
            (subtree_of_type g fuel root_loop CuType.CU) ||
          is_readonly_inside_loop_body g fuel e.2.2 root_loop
      then [] else [(node_at g e.2.1).id]))

/-- `__detect_geometric_decomposition(pet, root)` of
`geometric_decomposition_detector.py`: the detector returns False as soon
as a LOOP of the CHILD-subtree, or a LOOP directly under a FUNC directly
under the node, IS `reduction` or `do_all`. -/
def detect_geometric_decomposition (g : Graph) (fuel : Nat) (root : CuNode) :
    Bool :=
  ((subtree_of_type g fuel root CuType.LOOP).all (fun child =>
    !(child.reduction || child.do_all))) &&
  ((direct_children_of_type g root CuType.FUNC).all (fun child =>
    (direct_children_of_type g child CuType.LOOP).all (fun child2 =>
      !(child2.reduction || child2.do_all))))

/-- The dependence records handed to the `PETGraphX` constructor. -/
structure DependenceItem where
  type : String
  source : String
  sink : String
  var_name : String
deriving DecidableEq, Repr

/-- `DepType[dep.type]` as a partial lookup; `parse_dependency` is only
reached for the RAW/WAR/WAW records the analysis produces. -/
def dep_type_of_string (s : String) : Option DepType :=
  if s = "RAW" then some DepType.RAW
  else if s = "WAR" then some DepType.WAR
  else if s = "WAW" then some DepType.WAW
  else none

/-- `parse_dependency(dep)`. -/
def parse_dependency (dep : DependenceItem) : Dependency :=
  { etype := EdgeType.DATA
    dtype := dep_type_of_string dep.type
    var_name := dep.var_name
    source := dep.source
    sink := dep.sink }

/-- The dependency-edge insertion loop of `PETGraphX.__init__`: skip INIT
records, resolve sink/source lines to CU id sets, skip WAR/WAW records that
resolve to one and the same CU, skip pairs with an empty (falsy) id, and
add one DATA edge per surviving pair. -/
def build_dep_edges (deps : List DependenceItem)
    (readlineToCUIdMap writelineToCUIdMap : String → List String) :
    List (String × String × Dependency) :=
  deps.flatMap (fun dep =>
    if dep.type == "INIT" then []
    else
      (readlineToCUIdMap dep.sink).flatMap (fun sink_cu_id =>
        (writelineToCUIdMap dep.source).flatMap (fun source_cu_id =>
          if sink_cu_id == source_cu_id &&
              (dep.type == "WAR" || dep.type == "WAW") then []
          else if sink_cu_id ≠ "" ∧ source_cu_id ≠ "" then
            [(sink_cu_id, source_cu_id, parse_dependency dep)]
          else [])))

end PGX

/-! Concrete instances used to evaluate the embedded code on failing and
witnessing inputs. -/

/-- A graph-tool graph with no vertices, no edges and default properties. -/
def emptyGT : GTGraph where
  vertices := []
  edges := []
  vpType := fun _ => ""
  vpStartsAtLine := fun _ => ""
  vpEndsAtLine := fun _ => ""
  vpLocalVars := fun _ => []
  vpGlobalVars := fun _ => []
  vpPipeline := fun _ => 0
  vpDoAll := fun _ => 0
  vpReduction := fun _ => false
  vpGeomDecomp := fun _ => false
  vpMwType := fun _ => "NONE"
  vpVizOmittable := fun _ => "False"
  vpVizContainsTaskwait := fun _ => "False"
  vpVizContainsTask := fun _ => "False"

/-- A `child` edge. -/
def childE (a b : Nat) : GTEdge :=
  { src := a, tgt := b, etype := "child", dtype := "", var := "",
    source := "", sink := "" }

/-- A RAW `dependence` edge with the given source/sink positions and
variable. -/
def rawE (a b : Nat) (src snk v : String) : GTEdge :=
  { src := a, tgt := b, etype := "dependence", dtype := "RAW", var := v,
    source := src, sink := snk }

/-- The failing input of C2: one loop vertex 0 (start line `1:1`) with one
CU child 1 whose variable `i` has a RAW self-dependency at the loop header
(`is_loop_index` holds) and a WAR write outside the header
(`is_readonly_inside_loop_body` fails). -/
def gC2 : GTGraph :=
  { emptyGT with
    vertices := [0, 1]
    edges := [childE 0 1,
      rawE 1 1 "1:1" "1:1" "i",
      { src := 1, tgt := 1, etype := "dependence", dtype := "WAR",
        var := "i", source := "1:1", sink := "1:2" }]
    vpType := fun v => if v = 0 then "2" else "0"
    vpStartsAtLine := fun v => if v = 0 then "1:1" else "1:2" }

/-- The failing input of C3: a BARRIER vertex 1 ending at line `1:9` with
two outgoing dependence edges whose sinks are lines `1:5` and then `1:7`,
in that edge order. -/
def gC3 : GTGraph :=
  { emptyGT with
    vertices := [1, 2, 3]
    edges := [
      { src := 1, tgt := 2, etype := "dependence", dtype := "RAW",
        var := "x", source := "1:9", sink := "1:5" },
      { src := 1, tgt := 3, etype := "dependence", dtype := "RAW",
        var := "y", source := "1:9", sink := "1:7" }]
    vpType := fun _ => "0"
    vpStartsAtLine := fun v => if v = 1 then "1:4" else "1:5"
    vpEndsAtLine := fun v => if v = 1 then "1:9" else "1:5"
    vpMwType := fun v => if v = 1 then "BARRIER" else "NONE" }

/-- The failing input of C4: a parent 0 with children B=1, A=2, C=3 (in
that order), each owning one CU (4, 5, 6).  The RAW dependencies make the
classification pass label all three children BARRIER, the only direct
sibling dependence edges are A→B and C→B, and no edge connects A and C. -/
def gC4 : GTGraph :=
  { emptyGT with
    vertices := [0, 1, 2, 3, 4, 5, 6]
    edges := [childE 0 1, childE 0 2, childE 0 3,
      childE 1 4, childE 2 5, childE 3 6,
      rawE 2 1 "1:20" "1:10" "u",
      rawE 3 1 "1:30" "1:10" "v",
      rawE 4 5 "1:11" "1:21" "w",
      rawE 4 6 "1:11" "1:31" "w",
      rawE 6 5 "1:31" "1:21" "z",
      rawE 5 6 "1:21" "1:31" "z"]
    vpType := fun v => if v = 0 then "1" else "0" }

/-- The failing input of C6: a non-dummy vertex 0 with a `child` edge to a
dummy vertex 1, which `__merge(False, True)` removes. -/
def sC6 : PD.DetectorState :=
  { g := { emptyGT with
      vertices := [0, 1]
      edges := [childE 0 1]
      vpType := fun v => if v = 0 then "0" else "3" }
    loop_data := fun _ => 0
    reduction_vars := [] }

/-- The witnessing input of C8: loop vertex 0 (start line `1:3`) with CU
child 1 declaring local variable `x`, and a reduction-fact table pairing
line `1:3` with `x`. -/
def sC8 : PD.DetectorState :=
  { g := { emptyGT with
      vertices := [0, 1]
      edges := [childE 0 1]
      vpType := fun v => if v = 0 then "2" else "0"
      vpStartsAtLine := fun v => if v = 0 then "1:3" else "1:4"
      vpLocalVars := fun v => if v = 1 then ["x"] else [] }
    loop_data := fun _ => 0
    reduction_vars := [{ loop_line := "1:3", name := "x" }] }

/-- The witnessing input of C9: one isolated vertex with no dependence
edges; a single scan changes nothing. -/
def sC9 : TPD.BarrierState :=
  { g := { emptyGT with vertices := [0] }
    barrier_nodes := []
    suggestions := []
    changed := true }

/-- The failing input of C1: one LOOP node whose `do_all` flag is set and
that has no children at all; per the spec it qualifies for geometric
decomposition, yet the detector disqualifies it. -/
def nC1 : PGX.CuNode :=
  { id := "1:0", type := PGX.CuType.LOOP, source_file := 1, start_line := 5,
    end_line := 9, reduction := false, do_all := true }

/-- The graph containing just `nC1`. -/
def gC1 : PGX.Graph := { nodes := [("1:0", nC1)], edges := [] }

/-- The failing input of C5: a task whose own role is BARRIER_WORKER
aggregating a WORKER task. -/
def tC5 : TPD.Task :=
  { node_id := "1:0", nodes := [0], start_line := "1:1", end_line := "1:4",
    mw_type := "BARRIER_WORKER", instruction_count := 3, workload := 7 }

/-- The aggregated WORKER task of the C5 failing input. -/
def oC5 : TPD.Task :=
  { node_id := "1:1", nodes := [1], start_line := "1:5", end_line := "1:8",
    mw_type := "WORKER", instruction_count := 2, workload := 5 }

/-- The witnessing dependence record of C10. -/
def depC10 : PGX.DependenceItem :=
  { type := "WAW", source := "1:1", sink := "1:2", var_name := "x" }

/-- The witnessing read-line map of C10. -/
def rC10 : String → List String := fun _ => ["c1"]

/-- The witnessing write-line map of C10. -/
def wC10 : String → List String := fun _ => ["c2"]

/-! Frame predicates: `h` agrees with `g` on every component except the one
named.  Structure eta makes these read as "only that field may differ". -/

/-- `h` is `g` with at most the `mwType` map replaced. -/
def GTGraph.EqExceptMw (g h : GTGraph) : Prop :=
  h = { g with vpMwType := h.vpMwType }

/-- `h` is `g` with at most the `pipeline` map replaced. -/
def GTGraph.EqExceptPipeline (g h : GTGraph) : Prop :=
  h = { g with vpPipeline := h.vpPipeline }

/-- `h` is `g` with at most the `reduction` map replaced. -/
def GTGraph.EqExceptReduction (g h : GTGraph) : Prop :=
  h = { g with vpReduction := h.vpReduction }

/-- `h` is `g` with at most the `doAll` map replaced. -/
def GTGraph.EqExceptDoAll (g h : GTGraph) : Prop :=
  h = { g with vpDoAll := h.vpDoAll }

/-- `h` is `g` with at most the `geomDecomp` map replaced. -/
def GTGraph.EqExceptGeomDecomp (g h : GTGraph) : Prop :=
  h = { g with vpGeomDecomp := h.vpGeomDecomp }

/-- `h` is `g` with at most the edge list replaced. -/
def GTGraph.EqExceptEdges (g h : GTGraph) : Prop :=
  h = { g with edges := h.edges }

/-! ## Theorems -/

/-- Helper: membership in `if c then [] else l`. -/
theorem mem_ite_nil_left {α : Type} {c : Prop} [Decidable c] {l : List α}
    {a : α} : a ∈ (if c then ([] : List α) else l) ↔ ¬c ∧ a ∈ l := by
  split <;> simp_all

/-- Helper: membership in `if c then l else []`. -/
theorem mem_ite_nil_right {α : Type} {c : Prop} [Decidable c] {l : List α}
    {a : α} : a ∈ (if c then l else ([] : List α)) ↔ c ∧ a ∈ l := by
  split <;> simp_all

/-- C1: `__detect_geometric_decomposition` of
`geometric_decomposition_detector.py` DISQUALIFIES a LOOP node all of whose
CHILD-subtree LOOPs are `do_all` (and that has no FUNC children), the exact
opposite of the claimed qualification condition: the polarity of its test is
inverted. -/
theorem C1_detector_contradicts_qualification :
    PGX.detect_geometric_decomposition gC1 3 nC1 = false ∧
    (PGX.subtree_of_type gC1 3 nC1 PGX.CuType.LOOP).all
      (fun c => c.do_all || c.reduction) = true ∧
    PGX.direct_children_of_type gC1 nC1 PGX.CuType.FUNC = [] := by
  decide

/-- C3: on a BARRIER vertex ending at line 9 with dependence sinks at lines
5 and then 7 (both before the end line), `__detect_task_suggestions` emits
the taskwait at line 7 — the LAST qualifying sink — although line 5 is also
a qualifying dependence sink and is the smaller one; the running threshold
`first_dependency_line_number` is never updated with the chosen line. -/
theorem C3_taskwait_line_not_earliest :
    TPD.taskwait_suggestions gC3 = [(1, "1:7")] ∧
    (gC3.outEdges 1).any
      (fun e => e.etype == "dependence" && e.sink == "1:5") = true ∧
    strLt "5" "7" = true ∧
    strLt "5" (afterColon (gC3.vpEndsAtLine 1)) = true ∧
    ("1:7" : String) ≠ "1:5" := by
  decide

/-- C4: after `detect_task_parallelism` runs on parent 0 of `gC4`, the
sibling vertices 2 and 3 are both BARRIER and no dependency edge connects
them in either direction, yet neither is reclassified BARRIER_WORKER: the
`break` in the pair scan aborts each sibling's scan at vertex 1. -/
theorem C4_independent_barriers_not_reclassified :
    (PD.detect_task_parallelism gC4 5 0).vpMwType 2 = "BARRIER" ∧
    (PD.detect_task_parallelism gC4 5 0).vpMwType 3 = "BARRIER" ∧
    gC4.edges.all (fun e =>
      !((e.src == 2 && e.tgt == 3) || (e.src == 3 && e.tgt == 2))) = true ∧
    (2 : Nat) ≠ 3 ∧
    2 ∈ find_subnodes gC4 0 "child" ∧ 3 ∈ find_subnodes gC4 0 "child" := by
  decide

/-- C5 counterexample: a task whose own role is BARRIER_WORKER aggregates a
WORKER task and the result's role is WORKER, not BARRIER_WORKER as the
claim ("if either of the two tasks' roles was BARRIER_WORKER") requires. -/
theorem C5_counterexample_role_ignores_self :
    tC5.mw_type = "BARRIER_WORKER" ∧
    (TPD.Task.aggregate tC5 oC5).mw_type = "WORKER" ∧
    ("WORKER" : String) ≠ "BARRIER_WORKER" := by
  decide

/-- C5 amended: the role of the aggregate is BARRIER_WORKER exactly when
the AGGREGATED (`other`) task's role was BARRIER_WORKER, and WORKER
otherwise; the current task's own role is not consulted. -/
theorem C5_aggregate_role (t o : TPD.Task) :
    ((TPD.Task.aggregate t o).mw_type = "BARRIER_WORKER" ↔
      o.mw_type = "BARRIER_WORKER") ∧
    (TPD.Task.aggregate t o).mw_type =
      (if o.mw_type = "BARRIER_WORKER" then "BARRIER_WORKER" else "WORKER") := by
  by_cases h : o.mw_type = "BARRIER_WORKER" <;>
    simp [TPD.Task.aggregate, h]

/-- C6 counterexample: `__merge(False, True)`, the first pass of
`detect_patterns`, removes the `child` edge from the non-dummy vertex 0 to
the dummy vertex 1, so the edge set is not left unchanged by every pass. -/
theorem C6_counterexample_merge_removes_edge :
    sC6.g.edges = [childE 0 1] ∧ (PD.merge false true sC6).g.edges = [] ∧
    ([childE 0 1] : List GTEdge) ≠ [] := by
  decide

/-- C2 counterexample: in the legacy
`PatternDetector.get_all_dependencies`, the target of a RAW edge whose
variable satisfies `is_loop_index` (claim condition (a)) is still included
whenever `is_readonly_inside_loop_body` fails, because the copy excludes
only when both conditions hold; the spec-worded variant excludes it. -/
theorem C2_counterexample_loop_index_included :
    1 ∈ PD.get_all_dependencies gC2 5 0 0 ∧
    PD.is_loop_index (rawE 1 1 "1:1" "1:1" "i")
      ((PD.get_subtree_of_type gC2 5 0 "2").map gC2.vpStartsAtLine)
      (PD.get_subtree_of_type gC2 5 0 "0") = true ∧
    rawE 1 1 "1:1" "1:1" "i" ∈ gC2.outEdges 1 ∧
    PD.get_all_dependencies_spec gC2 5 0 0 = [] := by
  decide

/-- Helper: `EqExceptMw` is reflexive (structure eta). -/
theorem eqExceptMw_refl (g : GTGraph) : g.EqExceptMw g := rfl

/-- Helper: `EqExceptMw` is transitive. -/
theorem eqExceptMw_trans {g h k : GTGraph} (h1 : g.EqExceptMw h)
    (h2 : h.EqExceptMw k) : g.EqExceptMw k := by
  unfold GTGraph.EqExceptMw at *
  rw [h2, h1]

/-- Helper: `updMw` changes at most the `mwType` map. -/
theorem updMw_eqExceptMw (g : GTGraph) (v : Nat) (s : String) :
    g.EqExceptMw (g.updMw v s) := rfl

/-- Helper: a fold whose steps change at most `mwType` changes at most
`mwType`. -/
theorem foldl_eqExceptMw {α : Type} (f : GTGraph → α → GTGraph)
    (hf : ∀ (g : GTGraph) (x : α), g.EqExceptMw (f g x)) :
    ∀ (l : List α) (g : GTGraph), g.EqExceptMw (l.foldl f g) := by
  intro l
  induction l with
  | nil => intro g; exact eqExceptMw_refl g
  | cons x tl ih => intro g; exact eqExceptMw_trans (hf g x) (ih (f g x))

/-- Helper: the BARRIER-pair inner scan changes at most `mwType`. -/
theorem barrier_pair_inner_eqExceptMw (n1 : Nat) :
    ∀ (l : List Nat) (g : GTGraph), g.EqExceptMw (PD.barrier_pair_inner g n1 l) := by
  intro l
  induction l with
  | nil => intro g; exact eqExceptMw_refl g
  | cons n2 tl ih =>
    intro g
    unfold PD.barrier_pair_inner
    split
    · split
      · exact eqExceptMw_refl g
      · exact eqExceptMw_trans
          (eqExceptMw_trans (updMw_eqExceptMw g n1 "BARRIER_WORKER")
            (updMw_eqExceptMw _ n2 "BARRIER_WORKER")) (ih _)
    · exact ih g

/-- Helper: the per-child body of the classification pass changes at most
`mwType`. -/
theorem classification_body_eqExceptMw (fuel main_node : Nat)
    (g : GTGraph) (node : Nat) :
    g.EqExceptMw
      ((fun g node =>
        let g := if g.vpMwType node = "NONE" ∨ g.vpMwType node = "ROOT" then
            g.updMw node "FORK" else g
        let other_nodes := (find_subnodes g main_node "child").erase node
        other_nodes.foldl (fun g other_node =>
          if PD.depends g fuel other_node node then
            if g.vpMwType other_node = "WORKER" then g.updMw other_node "BARRIER"
            else g.updMw other_node "WORKER"
          else g) g) g node) := by
  dsimp only
  have h1 : g.EqExceptMw (if g.vpMwType node = "NONE" ∨
      g.vpMwType node = "ROOT" then g.updMw node "FORK" else g) := by
    split
    · exact updMw_eqExceptMw g node "FORK"
    · exact eqExceptMw_refl g
  refine eqExceptMw_trans h1 (foldl_eqExceptMw _ ?_ _ _)
  intro g other_node
  split
  · split
    · exact updMw_eqExceptMw g other_node "BARRIER"
    · exact updMw_eqExceptMw g other_node "WORKER"
  · exact eqExceptMw_refl g

/-- Helper: `detect_task_parallelism` changes at most `mwType`. -/
theorem detect_task_parallelism_eqExceptMw (g : GTGraph) (fuel main_node : Nat) :
    g.EqExceptMw (PD.detect_task_parallelism g fuel main_node) := by
  unfold PD.detect_task_parallelism
  dsimp only
  refine eqExceptMw_trans
    (foldl_eqExceptMw _ (classification_body_eqExceptMw fuel main_node) _ g)
    (foldl_eqExceptMw _ ?_ _ _)
  intro g n1
  split
  · exact barrier_pair_inner_eqExceptMw n1 _ g
  · exact eqExceptMw_refl g

/-- Helper: the whole task-parallelism pass changes at most `mwType`. -/
theorem detect_task_parallelism_loop_eqExceptMw (fuel : Nat)
    (s : PD.DetectorState) :
    s.g.EqExceptMw (PD.detect_task_parallelism_loop fuel s).g := by
  unfold PD.detect_task_parallelism_loop
  dsimp only
  refine foldl_eqExceptMw _ ?_ _ s.g
  intro g node
  dsimp only
  split
  · exact eqExceptMw_refl g
  · have h1 : g.EqExceptMw (if find_subnodes g node "child" ≠ [] then
        PD.detect_task_parallelism g fuel node else g) := by
      split
      · exact detect_task_parallelism_eqExceptMw g fuel node
      · exact eqExceptMw_refl g
    have h2 : ∀ (k : GTGraph),
        k.EqExceptMw (if k.vpMwType node = "NONE" then k.updMw node "ROOT"
          else k) := by
      intro k
      split
      · exact updMw_eqExceptMw k node "ROOT"
      · exact eqExceptMw_refl k
    exact eqExceptMw_trans h1 (h2 _)

/-- C6 amended: once loaded, the vertex set and the two auxiliary tables
are unchanged by the merge step and by each of the five detector passes;
the edge set is changed only by the merge step (which removes `child` edges
to dummy targets); and each detector pass touches exactly one vertex
property map — `pipeline`, `reduction`, `doAll`, `mwType` and `geomDecomp`
respectively — so each flag is written by exactly one pass. -/
theorem C6_passes_frame (fuel : Nat) (s : PD.DetectorState) :
    (s.g.EqExceptEdges (PD.merge false true s).g ∧
      (PD.merge false true s).loop_data = s.loop_data ∧
      (PD.merge false true s).reduction_vars = s.reduction_vars) ∧
    (s.g.EqExceptPipeline (PD.detect_pipeline_loop fuel s).g ∧
      (PD.detect_pipeline_loop fuel s).loop_data = s.loop_data ∧
      (PD.detect_pipeline_loop fuel s).reduction_vars = s.reduction_vars) ∧
    (s.g.EqExceptReduction (PD.detect_reduction_loop fuel s).g ∧
      (PD.detect_reduction_loop fuel s).loop_data = s.loop_data ∧
      (PD.detect_reduction_loop fuel s).reduction_vars = s.reduction_vars) ∧
    (s.g.EqExceptDoAll (PD.detect_do_all_loop fuel s).g ∧
      (PD.detect_do_all_loop fuel s).loop_data = s.loop_data ∧
      (PD.detect_do_all_loop fuel s).reduction_vars = s.reduction_vars) ∧
    (s.g.EqExceptMw (PD.detect_task_parallelism_loop fuel s).g ∧
      (PD.detect_task_parallelism_loop fuel s).loop_data = s.loop_data ∧
      (PD.detect_task_parallelism_loop fuel s).reduction_vars =
        s.reduction_vars) ∧
    (s.g.EqExceptGeomDecomp
        (PD.detect_geometric_decomposition_loop fuel s).g ∧
      (PD.detect_geometric_decomposition_loop fuel s).loop_data =
        s.loop_data ∧
      (PD.detect_geometric_decomposition_loop fuel s).reduction_vars =
        s.reduction_vars) := by
  refine ⟨⟨rfl, rfl, rfl⟩, ⟨rfl, rfl, rfl⟩, ⟨rfl, rfl, rfl⟩, ⟨rfl, rfl, rfl⟩,
    ⟨detect_task_parallelism_loop_eqExceptMw fuel s, rfl, rfl⟩,
    ⟨rfl, rfl, rfl⟩⟩

/-- C7: `correlation_coefficient` returns exactly 0 whenever the product of
the two vector norms is 0 — in particular whenever the first (observed)
vector is the zero vector — and performs the division only when that
product is nonzero. -/
theorem C7_correlation_zero_guard (v1 v2 : List ℝ) :
    ((∀ x ∈ v1, x = 0) → vnorm v1 * vnorm v2 = 0) ∧
    (vnorm v1 * vnorm v2 = 0 → correlation_coefficient v1 v2 = 0) ∧
    (vnorm v1 * vnorm v2 ≠ 0 →
      correlation_coefficient v1 v2 = vdot v1 v2 / (vnorm v1 * vnorm v2)) := by
  refine ⟨?_, ?_, ?_⟩
  · intro h0
    have hz : vnorm v1 = 0 := by
      unfold vnorm
      have : (v1.map (fun x => x ^ 2)).sum = 0 := by
        apply List.sum_eq_zero
        intro y hy
        rcases List.mem_map.mp hy with ⟨x, hx, rfl⟩
        rw [h0 x hx]
        ring
      rw [this, Real.sqrt_zero]
    rw [hz, zero_mul]
  · intro h
    unfold correlation_coefficient
    rw [if_pos h]
  · intro h
    unfold correlation_coefficient
    rw [if_neg h]

/-- C7 witness: on `v1 = [0]`, `v2 = [1]` the norm product is 0 and the
correlation coefficient is exactly 0. -/
theorem C7_correlation_zero_guard_witness :
    vnorm [(0 : ℝ)] * vnorm [(1 : ℝ)] = 0 ∧
    correlation_coefficient [(0 : ℝ)] [(1 : ℝ)] = 0 := by
  have h0 : ∀ x ∈ [(0 : ℝ)], x = 0 := by simp
  have hp := (C7_correlation_zero_guard [(0 : ℝ)] [(1 : ℝ)]).1 h0
  exact ⟨hp, (C7_correlation_zero_guard [(0 : ℝ)] [(1 : ℝ)]).2.1 hp⟩

/-- Helper: `__detect_reduction` on a loop vertex holds exactly when some
local or global variable name of some CU of the loop's CU-subtree is a
reduction variable for the loop's start line. -/
theorem detect_reduction_iff (g : GTGraph) (rv : List PD.RedVar)
    (fuel root : Nat) (ht : g.vpType root = "2") :
    PD.detect_reduction g rv fuel root = true ↔
      ∃ cu ∈ PD.get_subtree_of_type g fuel root "0",
        ∃ name ∈ g.vpLocalVars cu ++ g.vpGlobalVars cu,
          PD.is_reduction_var rv (g.vpStartsAtLine root) name = true := by
  unfold PD.detect_reduction
  rw [if_neg (by simp [ht])]
  simp only [List.any_eq_true, List.mem_flatMap]
  constructor
  · rintro ⟨name, ⟨cu, hcu, hname⟩, hpred⟩
    exact ⟨cu, hcu, name, hname, hpred⟩
  · rintro ⟨cu, hcu, name, hname, hpred⟩
    exact ⟨name, ⟨cu, hcu, hname⟩, hpred⟩

/-- C8: starting from the all-false `reduction` flags the graph is built
with, the reduction pass leaves a LOOP vertex's `reduction` flag true
exactly when some variable name in the local or global variable list of
some CU in the loop's CU-subtree occurs in the reduction-variable table
paired with the loop's start line. -/
theorem C8_reduction_flag_iff (fuel : Nat) (s : PD.DetectorState) (n : Nat)
    (h0 : ∀ v, s.g.vpReduction v = false) (hn : n ∈ s.g.vertices)
    (ht : s.g.vpType n = "2") :
    (PD.detect_reduction_loop fuel s).g.vpReduction n = true ↔
      ∃ cu ∈ PD.get_subtree_of_type s.g fuel n "0",
        ∃ name ∈ s.g.vpLocalVars cu ++ s.g.vpGlobalVars cu,
          PD.is_reduction_var s.reduction_vars (s.g.vpStartsAtLine n) name =
            true := by
  have hmain : (PD.detect_reduction_loop fuel s).g.vpReduction n =
      (if n ∈ s.g.vertices ∧ s.g.vpType n = "2" ∧
          PD.detect_reduction s.g s.reduction_vars fuel n = true then true
      else s.g.vpReduction n) := rfl
  rw [hmain, ← detect_reduction_iff s.g s.reduction_vars fuel n ht]
  by_cases hd : PD.detect_reduction s.g s.reduction_vars fuel n = true
  · rw [if_pos ⟨hn, ht, hd⟩]
    simp [hd]
  · rw [if_neg (by simp [hd]), h0 n]
    simp [hd]

/-- C8 witness: on the concrete loop/CU graph `sC8` the pass sets the flag
and the characterizing variable exists. -/
theorem C8_reduction_flag_iff_witness :
    (PD.detect_reduction_loop 3 sC8).g.vpReduction 0 = true :=
  (C8_reduction_flag_iff 3 sC8 0 (fun _ => rfl) (by decide) (by decide)).mpr
    (by decide)

/-- C2 amended: in `PETGraphX.get_all_dependencies` a RAW target is
excluded as soon as EITHER `is_loop_index` OR
`is_readonly_inside_loop_body` holds (as the claim states), whereas the
legacy `PatternDetector.get_all_dependencies` of `pattern_detection.py`
excludes a target only when BOTH hold simultaneously. -/
theorem C2_get_all_dependencies_characterization :
    (∀ (g : PGX.Graph) (fuel : Nat) (node root_loop : PGX.CuNode)
        (t : String),
      t ∈ PGX.get_all_dependencies g fuel node root_loop ↔
        ∃ v ∈ PGX.subtree_of_type g fuel node PGX.CuType.CU,
          ∃ e ∈ PGX.out_edges g v.id PGX.EdgeType.DATA,
            e.2.2.dtype = some PGX.DepType.RAW ∧
            (PGX.node_at g e.2.1).id = t ∧
            ¬(PGX.is_loop_index g e.2.2.var_name
                ((PGX.subtree_of_type g fuel root_loop
                  PGX.CuType.LOOP).map PGX.CuNode.start_position)
                (PGX.subtree_of_type g fuel root_loop PGX.CuType.CU) =
                  true) ∧
            ¬(PGX.is_readonly_inside_loop_body g fuel e.2.2 root_loop =
                true)) ∧
    (∀ (g : GTGraph) (fuel node root_loop t : Nat),
      t ∈ PD.get_all_dependencies g fuel node root_loop ↔
        ∃ v ∈ PD.get_subtree_of_type g fuel node "0",
          ∃ e ∈ g.outEdges v,
            e.etype = "dependence" ∧ e.dtype = "RAW" ∧ e.tgt = t ∧
            ¬(PD.is_loop_index e
                ((PD.get_subtree_of_type g fuel root_loop "2").map
                  g.vpStartsAtLine)
                (PD.get_subtree_of_type g fuel root_loop "0") = true ∧
              PD.is_readonly_inside_loop_body g fuel e root_loop = true)) := by
  constructor
  · intro g fuel node root_loop t
    unfold PGX.get_all_dependencies
    simp only [List.mem_flatMap, List.mem_filter, mem_ite_nil_left,
      Bool.or_eq_true, not_or, beq_iff_eq, List.mem_singleton]
    constructor
    · rintro ⟨v, hv, e, ⟨⟨he, hraw⟩, ⟨hnli, hnro⟩, ht⟩⟩
      exact ⟨v, hv, e, he, hraw, ht.symm, hnli, hnro⟩
    · rintro ⟨v, hv, e, he, hraw, ht, hnli, hnro⟩
      exact ⟨v, hv, e, ⟨⟨he, hraw⟩, ⟨hnli, hnro⟩, ht.symm⟩⟩
  · intro g fuel node root_loop t
    unfold PD.get_all_dependencies
    simp only [List.mem_flatMap, List.mem_filter, mem_ite_nil_right,
      Bool.not_eq_eq_eq_not, Bool.not_true, Bool.and_eq_false_imp,
      Bool.and_eq_true, beq_iff_eq, List.mem_singleton]
    constructor
    · rintro ⟨v, hv, e, ⟨⟨he, ⟨het, hraw⟩⟩, hcond, ht⟩⟩
      refine ⟨v, hv, e, he, het, hraw, ht.symm, ?_⟩
      rintro ⟨hli, hro⟩
      simp [hli, hro] at hcond
    · rintro ⟨v, hv, e, he, het, hraw, ht, hcond⟩
      refine ⟨v, hv, e, ⟨⟨he, ⟨het, hraw⟩⟩, ?_, ht.symm⟩⟩
      by_cases hli : PD.is_loop_index e
          ((PD.get_subtree_of_type g fuel root_loop "2").map
            g.vpStartsAtLine)
          (PD.get_subtree_of_type g fuel root_loop "0") = true
      · by_cases hro : PD.is_readonly_inside_loop_body g fuel e root_loop =
            true
        · exact absurd ⟨hli, hro⟩ hcond
        · simp [hli, hro]
      · simp [hli]

/-- Helper: `dep_type_of_string` yields WAR only on `"WAR"`. -/
theorem dep_type_of_string_war {s : String}
    (h : PGX.dep_type_of_string s = some PGX.DepType.WAR) : s = "WAR" := by
  unfold PGX.dep_type_of_string at h
  split_ifs at h with h1 h2 h3 <;> simp_all

/-- Helper: `dep_type_of_string` yields WAW only on `"WAW"`. -/
theorem dep_type_of_string_waw {s : String}
    (h : PGX.dep_type_of_string s = some PGX.DepType.WAW) : s = "WAW" := by
  unfold PGX.dep_type_of_string at h
  split_ifs at h with h1 h2 h3 <;> simp_all

/-- C10: graph construction inserts no DATA edge for an INIT dependence
record (filtering INIT records away first changes nothing), and every
inserted WAR or WAW DATA edge connects two distinct CUs — no WAR/WAW DATA
edge is a self-loop. -/
theorem C10_no_init_no_self_war_waw (deps : List PGX.DependenceItem)
    (rMap wMap : String → List String) :
    PGX.build_dep_edges deps rMap wMap =
      PGX.build_dep_edges (deps.filter (fun d => !(d.type == "INIT")))
        rMap wMap ∧
    ∀ e ∈ PGX.build_dep_edges deps rMap wMap,
      (e.2.2.dtype = some PGX.DepType.WAR ∨
        e.2.2.dtype = some PGX.DepType.WAW) → e.1 ≠ e.2.1 := by
  constructor
  · induction deps with
    | nil => rfl
    | cons d tl ih =>
      by_cases hd : d.type = "INIT"
      · have h1 : PGX.build_dep_edges (d :: tl) rMap wMap =
            PGX.build_dep_edges tl rMap wMap := by
          unfold PGX.build_dep_edges
          rw [List.flatMap_cons, if_pos (by simp [hd]), List.nil_append]
        have h2 : List.filter (fun x => !(x.type == "INIT")) (d :: tl) =
            List.filter (fun x => !(x.type == "INIT")) tl := by
          rw [List.filter_cons]
          simp [hd]
        rw [h1, h2, ih]
      · have h2 : List.filter (fun x => !(x.type == "INIT")) (d :: tl) =
            d :: List.filter (fun x => !(x.type == "INIT")) tl := by
          rw [List.filter_cons]
          simp [hd]
        rw [h2]
        unfold PGX.build_dep_edges at ih ⊢
        rw [List.flatMap_cons, List.flatMap_cons, ih]
  · intro e he hdt
    unfold PGX.build_dep_edges at he
    rw [List.mem_flatMap] at he
    obtain ⟨dep, hdep, hmem⟩ := he
    rw [mem_ite_nil_left] at hmem
    obtain ⟨hninit, hmem⟩ := hmem
    rw [List.mem_flatMap] at hmem
    obtain ⟨sinkId, hsink, hmem⟩ := hmem
    rw [List.mem_flatMap] at hmem
    obtain ⟨srcId, hsrc, hmem⟩ := hmem
    rw [mem_ite_nil_left] at hmem
    obtain ⟨hskip, hmem⟩ := hmem
    rw [mem_ite_nil_right] at hmem
    obtain ⟨_, hmem⟩ := hmem
    rw [List.mem_singleton] at hmem
    subst hmem
    have hty : dep.type = "WAR" ∨ dep.type = "WAW" := by
      rcases hdt with h | h
      · exact Or.inl (dep_type_of_string_war h)
      · exact Or.inr (dep_type_of_string_waw h)
    intro hEq
    apply hskip
    simp only [beq_iff_eq, Bool.or_eq_true, Bool.and_eq_true]
    exact ⟨hEq, by rcases hty with h | h <;> simp [h]⟩

/-- C10 witness: a WAW record resolving to the distinct CUs `c1` and `c2`
produces an edge, and the theorem yields that its endpoints differ. -/
theorem C10_no_init_no_self_war_waw_witness :
    ("c1", "c2", PGX.parse_dependency depC10) ∈
      PGX.build_dep_edges [depC10] rC10 wC10 ∧
    ("c1" : String) ≠ "c2" :=
  ⟨by decide,
    (C10_no_init_no_self_war_waw [depC10] rC10 wC10).2
      ("c1", "c2", PGX.parse_dependency depC10) (by decide)
      (Or.inr (by decide))⟩

/-- Helper: a pointwise-stronger predicate with a strict witness in the
list has a strictly smaller count. -/
theorem countP_lt_of_mem {α : Type} (l : List α) (p q : α → Bool)
    (hpq : ∀ x, q x = true → p x = true) (v : α) (hv : v ∈ l)
    (hqv : q v = false) (hpv : p v = true) :
    l.countP q < l.countP p := by
  induction l with
  | nil => cases hv
  | cons a tl ih =>
    have hhead : (if q a = true then 1 else 0) ≤
        (if p a = true then 1 else 0) := by
      by_cases hqa : q a = true
      · simp [hqa, hpq a hqa]
      · simp [hqa]
    rcases List.mem_cons.mp hv with h | hmem
    · subst h
      have hle : tl.countP q ≤ tl.countP p :=
        List.countP_mono_left (fun x _ hx => hpq x hx)
      have h1 : (if q v = true then 1 else 0) = 0 := by simp [hqv]
      have h2 : (if p v = true then 1 else 0) = 1 := by simp [hpv]
      rw [List.countP_cons, List.countP_cons, h1, h2]
      omega
    · have hlt := ih hmem
      rw [List.countP_cons, List.countP_cons]
      omega

/-- Helper: updating one vertex's flag to `'True'` never increases the
number of vertices whose flag reads `'False'`. -/
theorem countP_update_le (l : List Nat) (f : Nat → String) (v : Nat) :
    l.countP (fun x => (if x = v then "True" else f x) == "False") ≤
      l.countP (fun x => f x == "False") := by
  apply List.countP_mono_left
  intro x _ hx
  by_cases hxv : x = v
  · rw [if_pos hxv] at hx
    exact absurd hx (by decide)
  · rwa [if_neg hxv] at hx

/-- Helper: updating the flag of a listed vertex that reads `'False'` to
`'True'` strictly decreases the number of `'False'` flags. -/
theorem countP_update_lt (l : List Nat) (f : Nat → String) (v : Nat)
    (hv : v ∈ l) (hf : f v = "False") :
    l.countP (fun x => (if x = v then "True" else f x) == "False") <
      l.countP (fun x => f x == "False") := by
  apply countP_lt_of_mem l _ _ ?_ v hv ?_ ?_
  · intro x hx
    by_cases hxv : x = v
    · rw [if_pos hxv] at hx
      exact absurd hx (by decide)
    · rwa [if_neg hxv] at hx
  · rw [if_pos rfl]
    decide
  · rw [hf]
    decide

/-- Helper: each per-vertex step of the barrier-suggestion scan either
leaves the state untouched, or flips the vertex's `viz_omittable` flag
from `'False'` to `'True'`, or flips its `viz_contains_taskwait` flag from
`'False'` to `'True'` while appending the vertex to `barrier_nodes` and a
taskwait suggestion; in the two flipping cases it also raises `changed`. -/
theorem barrier_step_cases (t : List Nat) (s : TPD.BarrierState) (v : Nat) :
    TPD.barrier_step t s v = s ∨
    (s.g.vpVizOmittable v = "False" ∧
      TPD.barrier_step t s v =
        { s with g := TPD.mark_omittable s.g v, changed := true }) ∨
    (s.g.vpVizContainsTaskwait v = "False" ∧
      TPD.barrier_step t s v =
        { s with
          g := TPD.mark_contains_taskwait s.g v
          barrier_nodes := s.barrier_nodes ++ [v]
          changed := true
          suggestions := s.suggestions ++
            [(v, afterColon (s.g.vpStartsAtLine v))] }) := by
  unfold TPD.barrier_step
  dsimp only
  split_ifs with h1 h2 h3 h4 h5 h6 h7
  · exact Or.inr (Or.inl ⟨h2, rfl⟩)
  · exact Or.inl rfl
  · exact Or.inr (Or.inr ⟨h5, rfl⟩)
  · exact Or.inl rfl
  · exact Or.inl rfl
  · exact Or.inr (Or.inr ⟨h7, rfl⟩)
  · exact Or.inl rfl
  · exact Or.inl rfl

/-- Helper: the measure of a state after an `viz_omittable` flip. -/
theorem measure_mark_omit (s : TPD.BarrierState) (v : Nat) :
    TPD.barrier_measure
        { s with g := TPD.mark_omittable s.g v, changed := true } =
      s.g.vertices.countP
        (fun x => (if x = v then "True" else s.g.vpVizOmittable x) ==
          "False") +
      s.g.vertices.countP
        (fun x => s.g.vpVizContainsTaskwait x == "False") := rfl

/-- Helper: the measure of a state after a `viz_contains_taskwait` flip. -/
theorem measure_mark_tw (s : TPD.BarrierState) (v : Nat) :
    TPD.barrier_measure
        { s with
          g := TPD.mark_contains_taskwait s.g v
          barrier_nodes := s.barrier_nodes ++ [v]
          changed := true
          suggestions := s.suggestions ++
            [(v, afterColon (s.g.vpStartsAtLine v))] } =
      s.g.vertices.countP (fun x => s.g.vpVizOmittable x == "False") +
      s.g.vertices.countP
        (fun x => (if x = v then "True" else s.g.vpVizContainsTaskwait x) ==
          "False") := rfl

/-- Helper: every invariant of one scan's fold — vertex list preserved,
measure never increases and strictly decreases whenever the fold raises
`changed`, `changed` is monotone, set flags stay set, barrier nodes are
never removed, and a fold that reports no change is the identity. -/
theorem barrier_fold_invariant (t : List Nat) (verts : List Nat) :
    ∀ (l : List Nat), (∀ x ∈ l, x ∈ verts) → ∀ (s : TPD.BarrierState),
      s.g.vertices = verts →
      (l.foldl (TPD.barrier_step t) s).g.vertices = verts ∧
      TPD.barrier_measure (l.foldl (TPD.barrier_step t) s) ≤
        TPD.barrier_measure s ∧
      ((l.foldl (TPD.barrier_step t) s).changed = true →
        s.changed = true ∨
        TPD.barrier_measure (l.foldl (TPD.barrier_step t) s) <
          TPD.barrier_measure s) ∧
      (s.changed = true → (l.foldl (TPD.barrier_step t) s).changed = true) ∧
      (∀ v, s.g.vpVizOmittable v = "True" →
        (l.foldl (TPD.barrier_step t) s).g.vpVizOmittable v = "True") ∧
      (∀ v, s.g.vpVizContainsTaskwait v = "True" →
        (l.foldl (TPD.barrier_step t) s).g.vpVizContainsTaskwait v =
          "True") ∧
      (∀ b ∈ s.barrier_nodes,
        b ∈ (l.foldl (TPD.barrier_step t) s).barrier_nodes) ∧
      ((l.foldl (TPD.barrier_step t) s).changed = false →
        l.foldl (TPD.barrier_step t) s = s) := by
  intro l
  induction l with
  | nil =>
    intro _ s hs
    exact ⟨hs, le_rfl, fun h => Or.inl h, fun h => h, fun v h => h,
      fun v h => h, fun b hb => hb, fun _ => rfl⟩
  | cons x tl ih =>
    intro hmem s hs
    have hx : x ∈ verts := hmem x (List.mem_cons_self x tl)
    have hmem' : ∀ y ∈ tl, y ∈ verts := fun y hy =>
      hmem y (List.mem_cons_of_mem x hy)
    rw [List.foldl_cons]
    rcases barrier_step_cases t s x with hcase | ⟨hflag, hcase⟩ |
      ⟨hflag, hcase⟩
    · rw [hcase]
      exact ih hmem' s hs
    · -- `viz_omittable` flip
      rw [hcase]
      have hs' : ({ s with g := TPD.mark_omittable s.g x, changed := true } :
          TPD.BarrierState).g.vertices = verts := hs
      obtain ⟨i1, i2, i3, i4, i5, i6, i7, i8⟩ := ih hmem' _ hs'
      have hlt : TPD.barrier_measure
          { s with g := TPD.mark_omittable s.g x, changed := true } <
          TPD.barrier_measure s := by
        rw [measure_mark_omit]
        have := countP_update_lt s.g.vertices s.g.vpVizOmittable x
          (hs ▸ hx) hflag
        unfold TPD.barrier_measure
        omega
      have hch : (tl.foldl (TPD.barrier_step t)
          { s with g := TPD.mark_omittable s.g x, changed := true }).changed =
          true := i4 rfl
      refine ⟨i1, le_trans i2 (le_of_lt hlt), ?_, fun _ => hch, ?_, ?_, ?_,
        ?_⟩
      · intro _
        exact Or.inr (lt_of_le_of_lt i2 hlt)
      · intro v hv
        apply i5
        show (if v = x then "True" else s.g.vpVizOmittable v) = "True"
        split <;> simp [hv]
      · intro v hv
        exact i6 v hv
      · intro b hb
        exact i7 b hb
      · intro h0
        rw [hch] at h0
        exact absurd h0 (by decide)
    · -- `viz_contains_taskwait` flip
      rw [hcase]
      have hs' : ({ s with
          g := TPD.mark_contains_taskwait s.g x
          barrier_nodes := s.barrier_nodes ++ [x]
          changed := true
          suggestions := s.suggestions ++
            [(x, afterColon (s.g.vpStartsAtLine x))] } :
          TPD.BarrierState).g.vertices = verts := hs
      obtain ⟨i1, i2, i3, i4, i5, i6, i7, i8⟩ := ih hmem' _ hs'
      have hlt : TPD.barrier_measure
          { s with
            g := TPD.mark_contains_taskwait s.g x
            barrier_nodes := s.barrier_nodes ++ [x]
            changed := true
            suggestions := s.suggestions ++
              [(x, afterColon (s.g.vpStartsAtLine x))] } <
          TPD.barrier_measure s := by
        rw [measure_mark_tw]
        have := countP_update_lt s.g.vertices s.g.vpVizContainsTaskwait x
          (hs ▸ hx) hflag
        unfold TPD.barrier_measure
        omega
      have hch : (tl.foldl (TPD.barrier_step t)
          { s with
            g := TPD.mark_contains_taskwait s.g x
            barrier_nodes := s.barrier_nodes ++ [x]
            changed := true
            suggestions := s.suggestions ++
              [(x, afterColon (s.g.vpStartsAtLine x))] }).changed = true :=
        i4 rfl
      refine ⟨i1, le_trans i2 (le_of_lt hlt), ?_, fun _ => hch, ?_, ?_, ?_,
        ?_⟩
      · intro _
        exact Or.inr (lt_of_le_of_lt i2 hlt)
      · intro v hv
        exact i5 v hv
      · intro v hv
        apply i6
        show (if v = x then "True" else s.g.vpVizContainsTaskwait v) = "True"
        split <;> simp [hv]
      · intro b hb
        exact i7 b (List.mem_append_left _ hb)
      · intro h0
        rw [hch] at h0
        exact absurd h0 (by decide)

/-- Helper: one scan, unfolded. -/
theorem barrier_scan_def (t : List Nat) (s : TPD.BarrierState) :
    TPD.barrier_scan t s =
      s.g.vertices.foldl (TPD.barrier_step t) { s with changed := false } :=
  rfl

/-- Helper: a scan that reports a change strictly decreases the measure. -/
theorem barrier_scan_decreases (t : List Nat) (s : TPD.BarrierState)
    (h : (TPD.barrier_scan t s).changed = true) :
    TPD.barrier_measure (TPD.barrier_scan t s) < TPD.barrier_measure s := by
  have hinv := barrier_fold_invariant t s.g.vertices s.g.vertices
    (fun x hx => hx) { s with changed := false } rfl
  rw [barrier_scan_def] at h ⊢
  rcases hinv.2.2.1 h with hfalse | hlt
  · simp at hfalse
  · exact hlt

/-- Helper: with fuel exceeding the measure, the while-loop reaches a scan
that makes no change and exits. -/
theorem barrier_loop_fix (t : List Nat) :
    ∀ (n : Nat) (s : TPD.BarrierState), TPD.barrier_measure s ≤ n →
      ∀ fuel, n + 1 ≤ fuel → (TPD.barrier_loop t fuel s).changed = false := by
  intro n
  induction n with
  | zero =>
    intro s hm fuel hf
    match fuel, hf with
    | fuel + 1, _ =>
      by_cases hch : (TPD.barrier_scan t s).changed = true
      · have := barrier_scan_decreases t s hch
        omega
      · unfold TPD.barrier_loop
        rw [if_neg hch]
        exact Bool.not_eq_true _ ▸ hch
  | succ n ihn =>
    intro s hm fuel hf
    match fuel, hf with
    | fuel + 1, hf =>
      by_cases hch : (TPD.barrier_scan t s).changed = true
      · have hlt := barrier_scan_decreases t s hch
        have h1 : TPD.barrier_measure (TPD.barrier_scan t s) ≤ n := by omega
        have h2 : n + 1 ≤ fuel := by omega
        unfold TPD.barrier_loop
        rw [if_pos hch]
        exact ihn (TPD.barrier_scan t s) h1 fuel h2
      · unfold TPD.barrier_loop
        rw [if_neg hch]
        exact Bool.not_eq_true _ ▸ hch

/-- C9: the iterative barrier-suggestion fixpoint terminates on every
finite graph, cyclic dependence edges included: a scan never clears a set
`viz_omittable` or `viz_contains_taskwait` flag and never removes a barrier
node, a scan that reports a change has flipped at least one flag from unset
to set (the count of unset flags strictly decreases), a scan that reports
no change leaves the state untouched and the loop exits, and with fuel
exceeding the number of unset flags the while-loop reaches that fixpoint. -/
theorem C9_barrier_fixpoint_terminates (t : List Nat)
    (s : TPD.BarrierState) :
    (∀ v, s.g.vpVizOmittable v = "True" →
      (TPD.barrier_scan t s).g.vpVizOmittable v = "True") ∧
    (∀ v, s.g.vpVizContainsTaskwait v = "True" →
      (TPD.barrier_scan t s).g.vpVizContainsTaskwait v = "True") ∧
    (∀ b ∈ s.barrier_nodes, b ∈ (TPD.barrier_scan t s).barrier_nodes) ∧
    ((TPD.barrier_scan t s).changed = true →
      TPD.barrier_measure (TPD.barrier_scan t s) <
        TPD.barrier_measure s) ∧
    ((TPD.barrier_scan t s).changed = false →
      TPD.barrier_scan t s = { s with changed := false }) ∧
    (∀ fuel, TPD.barrier_measure s + 1 ≤ fuel →
      (TPD.barrier_loop t fuel s).changed = false) := by
  have hinv := barrier_fold_invariant t s.g.vertices s.g.vertices
    (fun x hx => hx) { s with changed := false } rfl
  refine ⟨?_, ?_, ?_, barrier_scan_decreases t s, ?_, ?_⟩
  · intro v hv
    rw [barrier_scan_def]
    exact hinv.2.2.2.2.1 v hv
  · intro v hv
    rw [barrier_scan_def]
    exact hinv.2.2.2.2.2.1 v hv
  · intro b hb
    rw [barrier_scan_def]
    exact hinv.2.2.2.2.2.2.1 b hb
  · intro h
    rw [barrier_scan_def] at h ⊢
    exact hinv.2.2.2.2.2.2.2 h
  · intro fuel hf
    exact barrier_loop_fix t (TPD.barrier_measure s) s le_rfl fuel hf

/-- C9 witness: on the one-vertex state `sC9` a scan reports no change, the
theorem yields that the scan is the identity up to the reset `changed`
flag, and the fuelled loop exits with no pending change. -/
theorem C9_barrier_fixpoint_terminates_witness :
    (TPD.barrier_scan [] sC9).changed = false ∧
    TPD.barrier_scan [] sC9 = { sC9 with changed := false } ∧
    (TPD.barrier_loop [] (TPD.barrier_measure sC9 + 1) sC9).changed =
      false := by
  refine ⟨by decide, ?_, ?_⟩
  · exact (C9_barrier_fixpoint_terminates [] sC9).2.2.2.2.1 (by decide)
  · exact (C9_barrier_fixpoint_terminates [] sC9).2.2.2.2.2 _ le_rfl

/-- C2 witness: the characterization applied to the concrete graph `gC2`
confirms target 1 is reported by the legacy copy. -/
theorem C2_get_all_dependencies_characterization_witness :
    1 ∈ PD.get_all_dependencies gC2 5 0 0 :=
  (C2_get_all_dependencies_characterization.2 gC2 5 0 0 1).mpr (by decide)

/-- C5 witness: the amended role rule applied to the concrete tasks. -/
theorem C5_aggregate_role_witness :
    (TPD.Task.aggregate tC5 oC5).mw_type = "WORKER" := by
  rw [(C5_aggregate_role tC5 oC5).2]
  decide

/-- C6 witness: the frame theorem applied to the concrete state `sC8`. -/
theorem C6_passes_frame_witness :
    (PD.detect_reduction_loop 3 sC8).loop_data = sC8.loop_data ∧
    sC8.g.EqExceptReduction (PD.detect_reduction_loop 3 sC8).g :=
  ⟨(C6_passes_frame 3 sC8).2.2.1.2.1, (C6_passes_frame 3 sC8).2.2.1.1⟩
